import Mathlib

/-!
Shallow embedding of the Car Dodger game (`src/index.py`) and proofs of the
specification's claims about it.

Modelling conventions:
* Python ints are `ℤ` (or `ℕ` where the source value is always non-negative:
  timers, score, `dt` from `clock.tick`).
* Python floats (`speed_mult`, enemy speeds) are modelled as exact rationals
  `ℚ`; `int()` and pygame's float-to-int coordinate assignment truncate toward
  zero, modelled by `ratTrunc`.
* `random.choice(lanes)` is modelled by an oracle `rand : ℕ` selecting index
  `rand % lanes.length`.
* The per-frame update block of `main` (lines 208-237) is `tick`; the
  R-key restart handler (lines 191-202) is `pressR`.
-/

namespace CarGame

/-- `WIDTH = 480` (screen width in pixels). -/
def WIDTH : ℤ := 480

/-- `HEIGHT = 700` (screen height in pixels). -/
def HEIGHT : ℤ := 700

/-- `LANE_COUNT = 3`. -/
def LANE_COUNT : ℕ := 3

/-- `ROAD_MARGIN = 60`. -/
def ROAD_MARGIN : ℤ := 60

/-- `LANE_WIDTH = (WIDTH - ROAD_MARGIN * 2) // LANE_COUNT` (= 120). -/
def LANE_WIDTH : ℤ := (WIDTH - ROAD_MARGIN * 2) / (LANE_COUNT : ℤ)

/-- Truncation of a rational toward zero, as Python `int()` and pygame's
float-to-int coordinate assignment behave. -/
def ratTrunc (q : ℚ) : ℤ := if 0 ≤ q then ⌊q⌋ else ⌈q⌉

/-- `ratTrunc` followed by clamping to `ℕ` (used where the source value is
always non-negative). -/
def ratTruncNat (q : ℚ) : ℕ := (ratTrunc q).toNat

/-- `lane_x(lane_index)`: left x coordinate of a lane. -/
def lane_x (lane_index : ℤ) : ℤ :=
  ROAD_MARGIN + lane_index * LANE_WIDTH + LANE_WIDTH / 8

/-- A pygame `Rect`: integer position and size. -/
structure Rect where
  x : ℤ
  y : ℤ
  w : ℤ
  h : ℤ
deriving DecidableEq

/-- `rect.top`. -/
def Rect.top (r : Rect) : ℤ := r.y

/-- `rect.centerx` (pygame computes `x + w >> 1`, an arithmetic shift). -/
def Rect.centerx (r : Rect) : ℤ := r.x + Int.fdiv r.w 2

/-- `a.colliderect b`: pygame's strict axis-aligned overlap test (shared
edges do not collide, zero-area rects never collide). -/
def Rect.colliderect (a b : Rect) : Bool :=
  decide (a.x < b.x + b.w) && decide (a.y < b.y + b.h)
    && decide (a.x + a.w > b.x) && decide (a.y + a.h > b.y)

/-- The `Player` entity (positional fields of its pygame rect, per-frame
speed, and the current move intent `move_dir ∈ {-1, 0, +1}`). -/
structure Player where
  width : ℤ
  height : ℤ
  x : ℤ
  y : ℤ
  speed : ℤ
  move_dir : ℤ
deriving DecidableEq

/-- `Player.__init__`: lane `LANE_COUNT // 2`, centred in its lane,
near the bottom of the screen. -/
def Player.init : Player :=
  { width := LANE_WIDTH / 2
    height := 80
    x := lane_x ((LANE_COUNT : ℤ) / 2) + (LANE_WIDTH / 2 - LANE_WIDTH / 2 / 2)
    y := HEIGHT - 80 - 40
    speed := 8
    move_dir := 0 }

/-- The player's pygame rect. -/
def Player.rect (p : Player) : Rect := ⟨p.x, p.y, p.width, p.height⟩

/-- `Player.update`: move by `move_dir * speed`, then clamp into
`[ROAD_MARGIN + 10, WIDTH - ROAD_MARGIN - 10 - width]`. -/
def Player.update (p : Player) : Player :=
  { p with
      x := max (ROAD_MARGIN + 10)
        (min (WIDTH - ROAD_MARGIN - 10 - p.width) (p.x + p.move_dir * p.speed)) }

/-- The `Enemy` entity; `speed` is a Python float (exact rational here). -/
structure Enemy where
  width : ℤ
  height : ℤ
  x : ℤ
  y : ℤ
  speed : ℚ
deriving DecidableEq

/-- `Enemy.__init__(lane, speed)`: spawned above the screen (`y = -height`),
centred in `lane`. -/
def Enemy.init (lane : ℤ) (speed : ℚ) : Enemy :=
  { width := LANE_WIDTH / 2
    height := 80
    x := lane_x lane + (LANE_WIDTH / 2 - LANE_WIDTH / 2 / 2)
    y := -80
    speed := speed }

/-- The enemy's pygame rect. -/
def Enemy.rect (e : Enemy) : Rect := ⟨e.x, e.y, e.width, e.height⟩

/-- `Enemy.update`: `rect.y += speed`; the pygame rect stores integers, so
the float sum is truncated toward zero. -/
def Enemy.update (e : Enemy) : Enemy :=
  { e with y := ratTrunc ((e.y : ℚ) + e.speed) }

/-- `Enemy.offscreen`: `rect.top > HEIGHT + 10`. -/
def Enemy.offscreen (e : Enemy) : Bool := decide (e.rect.top > HEIGHT + 10)

/-- A road stripe's mutable position (its size `8 × 24` is fixed). -/
structure Stripe where
  x : ℤ
  y : ℤ
deriving DecidableEq

/-- `Road.__init__` pre-fills stripes at `x = ROAD_MARGIN + i*LANE_WIDTH - 4`
for `i ∈ {1, 2}` and `y ∈ range(-100, HEIGHT + 100, 64)` (15 rows). -/
def initStripes : List Stripe :=
  (List.range 15).flatMap fun k =>
    (List.range (LANE_COUNT - 1)).map fun j =>
      { x := ROAD_MARGIN + ((j : ℤ) + 1) * LANE_WIDTH - 4
        y := -100 + 64 * (k : ℤ) }

/-- `Road.update(speed_scale)`: every stripe moves down by
`int(6 * speed_scale)`; then any stripe with `top > HEIGHT` is recycled to
`y = -24`. -/
def Road.update (speed_scale : ℚ) (stripes : List Stripe) : List Stripe :=
  ((stripes.map fun s => { s with y := s.y + ratTrunc (6 * speed_scale) }).map
    fun s => if s.y > HEIGHT then { s with y := (-24 : ℤ) } else s)

/-- The lane index the spawner attributes to an enemy:
`min(max((centerx - ROAD_MARGIN) // LANE_WIDTH, 0), LANE_COUNT - 1)`
(Python `//` is floor division). -/
def laneOf (e : Enemy) : ℤ :=
  min (max (Int.fdiv (e.rect.centerx - ROAD_MARGIN) LANE_WIDTH) 0)
    ((LANE_COUNT : ℤ) - 1)

/-- Lanes occupied near the top: lanes of enemies with `rect.top < 120`. -/
def occupiedLanes (enemies : List Enemy) : List ℤ :=
  (enemies.filter fun e => decide (e.rect.top < 120)).map laneOf

/-- The spawner's candidate list: lanes in `range(LANE_COUNT)` not occupied
near the top. -/
def freeLanes (enemies : List Enemy) : List ℤ :=
  ((List.range LANE_COUNT).map fun (i : ℕ) => (i : ℤ)).filter
    fun i => decide (i ∉ occupiedLanes enemies)

/-- `spawn_enemy(enemies, difficulty_speed)`: if no lane is free, do nothing;
otherwise append a new `Enemy` in a randomly chosen free lane (`rand` is the
randomness oracle). -/
def spawn_enemy (enemies : List Enemy) (difficulty_speed : ℚ) (rand : ℕ) :
    List Enemy :=
  if freeLanes enemies = [] then enemies
  else enemies ++ [Enemy.init
    ((freeLanes enemies).getD (rand % (freeLanes enemies).length) 0)
    difficulty_speed]

/-- The game-over flag of `main` (`state` is the string `"RUN"` or `"OVER"`). -/
inductive GState where
  | RUN : GState
  | OVER : GState
deriving DecidableEq

/-- The mutable state of `main`'s loop. -/
structure GameState where
  player : Player
  stripes : List Stripe
  enemies : List Enemy
  score : ℕ
  high_score : ℕ
  state : GState
  paused : Bool
  spawn_timer : ℕ
  spawn_interval : ℕ
  difficulty_timer : ℕ
  base_enemy_speed : ℤ
deriving DecidableEq

/-- `main`'s initial state: `score = 10000`, `high_score = 12000`,
running, unpaused, timers zero, `spawn_interval = 900`. -/
def initState : GameState :=
  { player := Player.init
    stripes := initStripes
    enemies := []
    score := 10000
    high_score := 12000
    state := GState.RUN
    paused := false
    spawn_timer := 0
    spawn_interval := 900
    difficulty_timer := 0
    base_enemy_speed := 6 }

/-- `speed_mult = min(1.0 + (difficulty_timer // 5000) * 0.1, 2.2)`. -/
def speed_mult (difficulty_timer : ℕ) : ℚ :=
  min (1 + ((difficulty_timer / 5000 : ℕ) : ℚ) * (1 / 10)) (22 / 10)

/-- `current_interval = max(320, int(spawn_interval / speed_mult))`. -/
def current_interval (spawn_interval : ℕ) (mult : ℚ) : ℕ :=
  max 320 (ratTruncNat ((spawn_interval : ℚ) / mult))

/-- Per-tick score gain: `int(10 * (dt / 1000.0) * speed_mult)`. -/
def score_gain (dt : ℕ) (mult : ℚ) : ℕ :=
  ratTruncNat (10 * ((dt : ℚ) / 1000) * mult)

/-- The enemy list as it stands at the collision pass of a running,
unpaused frame: possibly one spawn, then every enemy moves, then off-screen
enemies are dropped. -/
def tickEnemies (dt rand : ℕ) (s : GameState) : List Enemy :=
  ((if s.spawn_timer + dt ≥
        current_interval s.spawn_interval (speed_mult (s.difficulty_timer + dt))
      then spawn_enemy s.enemies
        ((s.base_enemy_speed : ℚ) * speed_mult (s.difficulty_timer + dt)) rand
      else s.enemies).map Enemy.update).filter fun e => !e.offscreen

/-- One pass of the update block of `main`'s loop (lines 208-237): a no-op
unless `state == "RUN" and not paused`; otherwise advance the difficulty
timer, road, player, spawn timer (spawning when it reaches the current
interval), enemies; crash on any enemy-player overlap (updating the best
score); and add the elapsed-time score gain. -/
def tick (dt rand : ℕ) (s : GameState) : GameState :=
  if s.state = GState.RUN ∧ s.paused = false then
    { player := s.player.update
      stripes := Road.update (speed_mult (s.difficulty_timer + dt)) s.stripes
      enemies := tickEnemies dt rand s
      score := s.score + score_gain dt (speed_mult (s.difficulty_timer + dt))
      high_score :=
        if (tickEnemies dt rand s).any
            (fun e => e.rect.colliderect s.player.update.rect) then
          max s.high_score s.score
        else s.high_score
      state :=
        if (tickEnemies dt rand s).any
            (fun e => e.rect.colliderect s.player.update.rect) then
          GState.OVER
        else s.state
      paused := s.paused
      spawn_timer :=
        if s.spawn_timer + dt ≥
            current_interval s.spawn_interval
              (speed_mult (s.difficulty_timer + dt)) then 0
        else s.spawn_timer + dt
      spawn_interval := s.spawn_interval
      difficulty_timer := s.difficulty_timer + dt
      base_enemy_speed := s.base_enemy_speed }
  else s

/-- The R-key handler (lines 191-202): in the `"OVER"` state, reset the
player, clear enemies, zero the score and timers, restore the spawn
interval and base speed, resume running, unpaused. The road stripes and the
best score are kept. -/
def pressR (s : GameState) : GameState :=
  if s.state = GState.OVER then
    { player := Player.init
      stripes := s.stripes
      enemies := []
      score := 0
      high_score := s.high_score
      state := GState.RUN
      paused := false
      spawn_timer := 0
      spawn_interval := 900
      difficulty_timer := 0
      base_enemy_speed := 6 }
  else s

/-- The P-key handler (line 189-190): toggle `paused` while running. -/
def pressP (s : GameState) : GameState :=
  if s.state = GState.RUN then { s with paused := !s.paused } else s

/-- One input-then-update step of the player: the key handler stores the
move intent, then the frame calls `Player.update`. -/
def Player.updateWith (p : Player) (d : ℤ) : Player :=
  Player.update { p with move_dir := d }

/-- Run a sequence of per-frame move intents through the player. -/
def runIntents (p : Player) (ds : List ℤ) : Player :=
  ds.foldl Player.updateWith p

/-- Ten times the speed multiplier, as a natural number (used to state the
integer closed forms of the rational formulas). -/
def mult10 (t : ℕ) : ℕ := min (10 + t / 5000) 22

/-- A crashed game state, for instantiating restart facts. -/
def crashedState : GameState := { initState with state := GState.OVER }

/-- A paused game state. -/
def pausedState : GameState := { initState with paused := true }

/-- A stationary enemy placed directly over the player's position. -/
def overlapEnemy : Enemy :=
  { width := 60, height := 80, x := 225, y := 520, speed := 0 }

/-- A running state whose only enemy overlaps the player. -/
def overlapState : GameState := { initState with enemies := [overlapEnemy] }

/-- An enemy already past the bottom of the screen, moving down. -/
def goneEnemy : Enemy :=
  { width := 60, height := 80, x := 105, y := 720, speed := 1 }

lemma ratTrunc_intCast (n : ℤ) : ratTrunc (n : ℚ) = n := by
  unfold ratTrunc
  split <;> simp

lemma ratTrunc_nonneg_eq_floor (q : ℚ) (h : 0 ≤ q) : ratTrunc q = ⌊q⌋ :=
  if_pos h

lemma ratTruncNat_natCast_div (a b : ℕ) :
    ratTruncNat ((a : ℚ) / (b : ℚ)) = a / b := by
  rw [ratTruncNat, ratTrunc_nonneg_eq_floor _ (by positivity), Int.floor_toNat,
    Rat.natFloor_natCast_div_natCast]

lemma le_ratTrunc_add (y : ℤ) (q : ℚ) (h : 0 ≤ q) :
    y ≤ ratTrunc ((y : ℚ) + q) := by
  unfold ratTrunc
  split
  · rw [Int.le_floor]
    linarith
  · have h1 : (y : ℚ) ≤ (y : ℚ) + q := by linarith
    have h2 : ((y : ℚ) + q) ≤ ⌈(y : ℚ) + q⌉ := Int.le_ceil _
    exact_mod_cast h1.trans h2

lemma speed_mult_eq (t : ℕ) : speed_mult t = (mult10 t : ℚ) / 10 := by
  unfold speed_mult mult10
  rw [Nat.cast_min, ← min_div_div_right (by norm_num : (0 : ℚ) ≤ 10)]
  congr 1
  push_cast
  ring

lemma mult10_pos (t : ℕ) : 0 < mult10 t := by
  unfold mult10
  omega

lemma speed_mult_pos (t : ℕ) : 0 < speed_mult t := by
  rw [speed_mult_eq]
  apply div_pos _ (by norm_num)
  exact_mod_cast mult10_pos t

lemma score_gain_eq (dt t : ℕ) :
    score_gain dt (speed_mult t) = dt * mult10 t / 1000 := by
  rw [score_gain, speed_mult_eq]
  have h : (10 : ℚ) * ((dt : ℚ) / 1000) * ((mult10 t : ℚ) / 10)
      = ((dt * mult10 t : ℕ) : ℚ) / ((1000 : ℕ) : ℚ) := by
    push_cast
    ring
  rw [h, ratTruncNat_natCast_div]

lemma current_interval_eq (t : ℕ) :
    current_interval 900 (speed_mult t) = max 320 (9000 / mult10 t) := by
  rw [current_interval, speed_mult_eq]
  have h : ((900 : ℕ) : ℚ) / ((mult10 t : ℚ) / 10)
      = ((9000 : ℕ) : ℚ) / ((mult10 t : ℕ) : ℚ) := by
    rw [div_div_eq_mul_div]
    push_cast
    ring
  rw [h, ratTruncNat_natCast_div]

lemma tick_not_running (dt rand : ℕ) (s : GameState)
    (h : ¬(s.state = GState.RUN ∧ s.paused = false)) : tick dt rand s = s :=
  if_neg h

lemma tick_score (dt rand : ℕ) (s : GameState) (h1 : s.state = GState.RUN)
    (h2 : s.paused = false) :
    (tick dt rand s).score
      = s.score + score_gain dt (speed_mult (s.difficulty_timer + dt)) := by
  unfold tick
  rw [if_pos ⟨h1, h2⟩]

lemma tick_spawn_interval (dt rand : ℕ) (s : GameState) :
    (tick dt rand s).spawn_interval = s.spawn_interval := by
  by_cases h : s.state = GState.RUN ∧ s.paused = false
  · unfold tick
    rw [if_pos h]
  · rw [tick_not_running dt rand s h]

lemma update_width (p : Player) : p.update.width = p.width := rfl

lemma updateWith_width (p : Player) (d : ℤ) :
    (p.updateWith d).width = p.width := rfl

lemma runIntents_width (p : Player) (ds : List ℤ) :
    (runIntents p ds).width = p.width := by
  induction ds generalizing p with
  | nil => rfl
  | cons d ds ih => exact (ih (p.updateWith d)).trans (updateWith_width p d)

lemma update_bounds (p : Player) (hw : p.width = LANE_WIDTH / 2) :
    ROAD_MARGIN + 10 ≤ p.update.x
      ∧ p.update.x ≤ WIDTH - ROAD_MARGIN - 10 - p.width := by
  constructor
  · exact le_max_left _ _
  · apply max_le
    · rw [hw]
      decide
    · exact min_le_left _ _

lemma getD_mem (l : List ℤ) (n : ℕ) (h : l ≠ []) :
    l.getD (n % l.length) 0 ∈ l := by
  have hl : 0 < l.length := List.length_pos.mpr h
  have hn : n % l.length < l.length := Nat.mod_lt _ hl
  rw [List.getD_eq_getElem l 0 hn]
  exact List.getElem_mem hn

lemma laneOf_init (n : ℕ) (hn : n < LANE_COUNT) (speed : ℚ) :
    laneOf (Enemy.init (n : ℤ) speed) = n := by
  have h3 : n < 3 := hn
  interval_cases n <;> rfl

lemma update_overlapEnemy : Enemy.update overlapEnemy = overlapEnemy := by
  rw [Enemy.update]
  show ({ overlapEnemy with y := ratTrunc (((520 : ℤ) : ℚ) + 0) } : Enemy)
    = overlapEnemy
  rw [add_zero, ratTrunc_intCast]
  rfl

/-- C4: the speed multiplier equals `min(1 + (t // 5000) * 0.1, 2.2)`, is a
non-decreasing step function of the accumulated difficulty time, never
exceeds 2.2, and a restart resets the difficulty timer to 0, where the
multiplier is exactly 1. -/
theorem speed_mult_capped_monotone (t t' : ℕ) (s : GameState) (htt : t ≤ t')
    (hs : s.state = GState.OVER) :
    speed_mult t = min (1 + ((t / 5000 : ℕ) : ℚ) * (1 / 10)) (22 / 10)
      ∧ speed_mult t ≤ speed_mult t'
      ∧ speed_mult t ≤ 22 / 10
      ∧ (pressR s).difficulty_timer = 0
      ∧ speed_mult 0 = 1 := by
  refine ⟨rfl, ?_, ?_, ?_, ?_⟩
  · rw [speed_mult_eq, speed_mult_eq]
    have h : mult10 t ≤ mult10 t' := by
      have hd : t / 5000 ≤ t' / 5000 := Nat.div_le_div_right htt
      unfold mult10
      omega
    have h' : ((mult10 t : ℕ) : ℚ) ≤ ((mult10 t' : ℕ) : ℚ) := by
      exact_mod_cast h
    linarith
  · exact min_le_right _ _
  · rw [pressR, if_pos hs]
  · rw [speed_mult_eq]
    norm_num [mult10]

/-- C4 witness: instantiated at `t = 0 ≤ t' = 7000` and a crashed state. -/
theorem speed_mult_capped_monotone_witness :
    speed_mult 0 = min (1 + ((0 / 5000 : ℕ) : ℚ) * (1 / 10)) (22 / 10)
      ∧ speed_mult 0 ≤ speed_mult 7000
      ∧ speed_mult 0 ≤ 22 / 10
      ∧ (pressR crashedState).difficulty_timer = 0
      ∧ speed_mult 0 = 1 :=
  speed_mult_capped_monotone 0 7000 crashedState (by norm_num) rfl

/-- C6: a frame while paused, or while crashed, changes nothing of the
simulation state (no player, road, enemy, spawn, collision or score
effect); and across a running frame the score never decreases. -/
theorem paused_or_crashed_frame_is_noop (s : GameState) (dt rand : ℕ) :
    ((s.paused = true ∨ s.state = GState.OVER) → tick dt rand s = s)
      ∧ (s.state = GState.RUN → s.score ≤ (tick dt rand s).score) := by
  constructor
  · intro h
    apply tick_not_running
    rintro ⟨hrun, hp⟩
    rcases h with h | h
    · rw [h] at hp
      cases hp
    · rw [h] at hrun
      cases hrun
  · intro hrun
    by_cases hp : s.paused = false
    · rw [tick_score dt rand s hrun hp]
      exact Nat.le_add_right _ _
    · rw [tick_not_running dt rand s fun hc => hp hc.2]

/-- C6 witness: a concrete paused frame is a strict no-op, and the paused
state is RUNNING so its score is (trivially) non-decreasing. -/
theorem paused_frame_is_noop_witness :
    tick 16 0 pausedState = pausedState
      ∧ pausedState.score ≤ (tick 16 0 pausedState).score :=
  ⟨(paused_or_crashed_frame_is_noop pausedState 16 0).1 (Or.inl rfl),
    (paused_or_crashed_frame_is_noop pausedState 16 0).2 rfl⟩

/-- C7: a restart from the CRASHED state installs a fresh player, clears
the enemies, zeroes the score, resets the spawn timer, spawn interval and
difficulty timer to their initial values, clears the pause flag, and
returns to RUNNING. -/
theorem restart_resets_session (s : GameState) (hs : s.state = GState.OVER) :
    (pressR s).player = Player.init
      ∧ (pressR s).enemies = []
      ∧ (pressR s).score = 0
      ∧ (pressR s).spawn_timer = 0
      ∧ (pressR s).spawn_interval = 900
      ∧ (pressR s).difficulty_timer = 0
      ∧ (pressR s).paused = false
      ∧ (pressR s).state = GState.RUN := by
  rw [pressR, if_pos hs]
  exact ⟨rfl, rfl, rfl, rfl, rfl, rfl, rfl, rfl⟩

/-- C7 witness: the restart facts at a concrete crashed state. -/
theorem restart_resets_session_witness :
    (pressR crashedState).player = Player.init
      ∧ (pressR crashedState).enemies = []
      ∧ (pressR crashedState).score = 0
      ∧ (pressR crashedState).spawn_timer = 0
      ∧ (pressR crashedState).spawn_interval = 900
      ∧ (pressR crashedState).difficulty_timer = 0
      ∧ (pressR crashedState).paused = false
      ∧ (pressR crashedState).state = GState.RUN :=
  restart_resets_session crashedState rfl

/-- C8: on every tick the spawn interval is
`max(320, int(900 / speed_mult))` (equivalently `max(320, 9000 / mult10)`
in integer arithmetic); at difficulty time 0 it is exactly 900 ms, at
25000 ms the multiplier is 1.5 and the interval is `max(320, 600) = 600`;
the base interval variable stays 900 on every tick. -/
theorem spawn_interval_formula :
    (∀ t : ℕ, current_interval 900 (speed_mult t)
        = max 320 (ratTruncNat ((900 : ℚ) / speed_mult t)))
      ∧ (∀ t : ℕ, current_interval 900 (speed_mult t)
        = max 320 (9000 / mult10 t))
      ∧ current_interval 900 (speed_mult 0) = 900
      ∧ speed_mult 25000 = 3 / 2
      ∧ current_interval 900 (speed_mult 25000) = 600
      ∧ (∀ (dt rand : ℕ) (s : GameState),
          (tick dt rand s).spawn_interval = s.spawn_interval)
      ∧ initState.spawn_interval = 900 := by
  refine ⟨?_, current_interval_eq, ?_, ?_, ?_, tick_spawn_interval, rfl⟩
  · intro t
    rw [current_interval]
    norm_num
  · rw [current_interval_eq]
    norm_num [mult10]
  · rw [speed_mult_eq]
    norm_num [mult10]
  · rw [current_interval_eq]
    norm_num [mult10]

/-- C9: `offscreen` holds exactly when the enemy's top edge is more than
the 10-pixel margin below the visible height, and for a non-negative
downward speed it stays true across every further `Enemy.update`. -/
theorem offscreen_iff_and_monotone (e : Enemy) (hs : 0 ≤ e.speed) :
    (e.offscreen = true ↔ e.rect.top > HEIGHT + 10)
      ∧ (e.offscreen = true → (Enemy.update e).offscreen = true) := by
  constructor
  · exact decide_eq_true_iff
  · intro h
    have h1 : e.rect.top > HEIGHT + 10 := decide_eq_true_iff.mp h
    have h2 : e.y ≤ (Enemy.update e).y := le_ratTrunc_add e.y e.speed hs
    apply decide_eq_true_iff.mpr
    show HEIGHT + 10 < (Enemy.update e).y
    exact lt_of_lt_of_le h1 h2

/-- C9 witness: instantiated at an enemy past the bottom with speed 1. -/
theorem offscreen_iff_and_monotone_witness :
    (goneEnemy.offscreen = true ↔ goneEnemy.rect.top > HEIGHT + 10)
      ∧ (goneEnemy.offscreen = true
        → (Enemy.update goneEnemy).offscreen = true) :=
  offscreen_iff_and_monotone goneEnemy (by norm_num [goneEnemy])

/-- C10: the first session starts with score 10000 and best score 12000
(not 0); only a session entered through the restart command starts at
score 0. -/
theorem first_session_scores :
    initState.score = 10000
      ∧ initState.high_score = 12000
      ∧ initState.score ≠ 0
      ∧ ∀ s : GameState, (pressR { s with state := GState.OVER }).score = 0 := by
  refine ⟨rfl, rfl, by decide, fun s => ?_⟩
  rw [pressR, if_pos rfl]

/-- C2: after each `Player.update` of any nonempty sequence of move
intents, the player's x position lies within
`[ROAD_MARGIN + 10, WIDTH - ROAD_MARGIN - 10 - width]`; the update is a
total function, so it always succeeds. -/
theorem player_clamped_in_road (p : Player) (ds : List ℤ)
    (hw : p.width = LANE_WIDTH / 2) (hne : ds ≠ []) :
    ROAD_MARGIN + 10 ≤ (runIntents p ds).x
      ∧ (runIntents p ds).x
        ≤ WIDTH - ROAD_MARGIN - 10 - (runIntents p ds).width := by
  induction ds generalizing p with
  | nil => exact absurd rfl hne
  | cons d ds ih =>
    rcases ds with _ | ⟨d2, ds2⟩
    · exact update_bounds { p with move_dir := d } hw
    · exact ih (p.updateWith d) hw (by simp)

/-- C2 witness: the initial player holding "move right" for one frame. -/
theorem player_clamped_in_road_witness :
    ROAD_MARGIN + 10 ≤ (runIntents Player.init [1]).x
      ∧ (runIntents Player.init [1]).x
        ≤ WIDTH - ROAD_MARGIN - 10 - (runIntents Player.init [1]).width :=
  player_clamped_in_road Player.init [1] rfl (by simp)

/-- C5: when at least one lane is free of enemies near the top, the spawner
appends one enemy whose lane is outside the occupied set; when every lane
is occupied near the top, it changes nothing. -/
theorem spawner_respects_occupied_lanes (enemies : List Enemy) (speed : ℚ)
    (rand : ℕ) :
    (freeLanes enemies ≠ [] →
      ∃ e, spawn_enemy enemies speed rand = enemies ++ [e]
        ∧ laneOf e ∉ occupiedLanes enemies)
      ∧ (freeLanes enemies = [] → spawn_enemy enemies speed rand = enemies) := by
  constructor
  · intro hne
    rw [spawn_enemy, if_neg hne]
    obtain ⟨x, hx⟩ :
        ∃ x, (freeLanes enemies).getD (rand % (freeLanes enemies).length) 0 = x :=
      ⟨_, rfl⟩
    rw [hx]
    refine ⟨_, rfl, ?_⟩
    have hmem : x ∈ freeLanes enemies :=
      hx ▸ getD_mem (freeLanes enemies) rand hne
    rw [freeLanes] at hmem
    obtain ⟨hrange, hfree⟩ := List.mem_filter.mp hmem
    obtain ⟨n, hn, heq⟩ := List.mem_map.mp hrange
    have hn3 : n < LANE_COUNT := List.mem_range.mp hn
    rw [← heq, laneOf_init n hn3 speed, heq]
    exact of_decide_eq_true hfree
  · intro h
    rw [spawn_enemy, if_pos h]

/-- C5 witness: with no enemies every lane is free, and the spawner appends
an enemy in an unoccupied lane. -/
theorem spawner_respects_occupied_lanes_witness :
    freeLanes [] ≠ []
      ∧ ∃ e, spawn_enemy [] 5 0 = [] ++ [e] ∧ laneOf e ∉ occupiedLanes [] :=
  ⟨by decide, (spawner_respects_occupied_lanes [] 5 0).1 (by decide)⟩

/-- C3 (amended): on a running, unpaused tick the score increases by
exactly `int(10 * (dt / 1000) * speed_mult)` — Python `int()` truncation,
equal to `dt * mult10 / 1000` in integer arithmetic — not by rounding. -/
theorem score_accrual_truncates (s : GameState) (dt rand : ℕ)
    (h1 : s.state = GState.RUN) (h2 : s.paused = false) :
    (tick dt rand s).score
      = s.score + ratTruncNat (10 * ((dt : ℚ) / 1000)
          * speed_mult (s.difficulty_timer + dt))
      ∧ (tick dt rand s).score
      = s.score + dt * mult10 (s.difficulty_timer + dt) / 1000 := by
  have h := tick_score dt rand s h1 h2
  exact ⟨h, by rw [h, score_gain_eq]⟩

/-- C3 witness: the truncation facts at the initial state with `dt = 16`. -/
theorem score_accrual_truncates_witness :
    (tick 16 0 initState).score
      = initState.score + ratTruncNat (10 * ((16 : ℚ) / 1000)
          * speed_mult (initState.difficulty_timer + 16))
      ∧ (tick 16 0 initState).score
      = initState.score + 16 * mult10 (initState.difficulty_timer + 16) / 1000 :=
  score_accrual_truncates initState 16 0 rfl rfl

/-- C3 counterexample: on the tick `dt = 60` from the initial state (speed
multiplier 1.0) the code adds `int(0.6) = 0` to the score, while the
claimed increment `round(10 * (dt/1000) * speed_mult) = round(0.6)` is 1,
so the claimed per-tick score equation fails on this tick. -/
theorem score_accrual_round_counterexample :
    (tick 60 0 initState).score = initState.score
      ∧ round ((10 : ℚ) * ((60 : ℚ) / 1000)
          * speed_mult (initState.difficulty_timer + 60)) = 1
      ∧ (tick 60 0 initState).score
        ≠ initState.score
          + (round ((10 : ℚ) * ((60 : ℚ) / 1000)
              * speed_mult (initState.difficulty_timer + 60))).toNat := by
  have hmul : speed_mult (initState.difficulty_timer + 60) = 1 := by
    rw [speed_mult_eq]
    norm_num [mult10, initState]
  have hscore : (tick 60 0 initState).score = initState.score := by
    rw [tick_score 60 0 initState rfl rfl, score_gain_eq]
    norm_num [mult10, initState]
  have harg : (10 : ℚ) * ((60 : ℚ) / 1000) * 1 + 1 / 2
      = ((11 : ℕ) : ℚ) / ((10 : ℕ) : ℚ) := by
    push_cast
    norm_num
  have hround : round ((10 : ℚ) * ((60 : ℚ) / 1000)
      * speed_mult (initState.difficulty_timer + 60)) = 1 := by
    rw [hmul, round_eq, harg, Rat.floor_natCast_div_natCast]
    norm_num
  refine ⟨hscore, hround, ?_⟩
  rw [hscore, hround]
  norm_num [initState]

/-- C1: while RUNNING and unpaused, if any enemy of the per-tick collision
pass overlaps the updated player rectangle, that tick ends CRASHED and the
best score becomes `max(bestScore, currentScore)`; any single overlap
suffices. -/
theorem collision_crashes_and_updates_best (s : GameState) (dt rand : ℕ)
    (h1 : s.state = GState.RUN) (h2 : s.paused = false)
    (hcol : ∃ e ∈ tickEnemies dt rand s,
      e.rect.colliderect s.player.update.rect = true) :
    (tick dt rand s).state = GState.OVER
      ∧ (tick dt rand s).high_score = max s.high_score s.score := by
  have hany : (tickEnemies dt rand s).any
      (fun e => e.rect.colliderect s.player.update.rect) = true :=
    List.any_eq_true.mpr hcol
  unfold tick
  rw [if_pos ⟨h1, h2⟩]
  constructor
  · show (if (tickEnemies dt rand s).any
        (fun e => e.rect.colliderect s.player.update.rect) then
        GState.OVER else s.state) = GState.OVER
    rw [hany]
    rfl
  · show (if (tickEnemies dt rand s).any
        (fun e => e.rect.colliderect s.player.update.rect) then
        max s.high_score s.score else s.high_score) = max s.high_score s.score
    rw [hany]
    rfl

/-- C1 witness: a running state whose single injected enemy exactly
overlaps the player crashes on the next tick, with the best score set to
`max(bestScore, score)`. -/
theorem collision_crashes_witness :
    (tick 16 0 overlapState).state = GState.OVER
      ∧ (tick 16 0 overlapState).high_score
        = max overlapState.high_score overlapState.score := by
  apply collision_crashes_and_updates_best overlapState 16 0 rfl rfl
  refine ⟨overlapEnemy, ?_, ?_⟩
  · have hcond : ¬ (overlapState.spawn_timer + 16 ≥
        current_interval overlapState.spawn_interval
          (speed_mult (overlapState.difficulty_timer + 16))) := by
      show ¬ (0 + 16 ≥ current_interval 900 (speed_mult (0 + 16)))
      rw [current_interval_eq]
      norm_num [mult10]
    unfold tickEnemies
    rw [if_neg hcond]
    apply List.mem_filter.mpr
    constructor
    · apply List.mem_map.mpr
      refine ⟨overlapEnemy, ?_, update_overlapEnemy⟩
      show overlapEnemy ∈ [overlapEnemy]
      exact List.mem_singleton_self _
    · decide
  · decide

end CarGame
